import Mathlib

/-!
Shallow embedding of two Prebid.js plugin modules:

* `src/modules/adgenerationBidAdapter.js` — the Adgeneration bid adapter
  (`spec.buildRequests`, `spec.interpretResponse`, `createAd`,
  `removeWrapper`, `getCurrencyType`, the native-asset decoder, …);
* `src/unnamed/part_000` (= `modules/novatiqIdSystem.js`) — the Novatiq
  user-id submodule (`getId`/`snowflakeId`, `getSrcId`).

Modelling conventions:

* JavaScript strings are `List Char` (`JStr`).
* The JavaScript numbers that reach these modules are used only integrally
  and through truthiness tests, so they are modelled as `Int`.
* `undefined`/`null` fields are `Option`; a property access on an absent
  object value raises a `TypeError`, modelled with `Except JsError`.
* The global Prebid config store is made an explicit parameter
  (`adServerCurrency : Option JStr`), and `Math.random()` an explicit
  stream of already-scaled draws. Logging calls are elided.
-/

/-- A JavaScript string, modelled as its list of characters. -/
abbrev JStr := List Char

/-- Runtime errors JS evaluation can raise in the modelled code
(all of them are property accesses on `undefined`). -/
inductive JsError where
  | typeError
  deriving DecidableEq, Repr

/-- Decidable equality for `Except` results, so witnesses can be checked
by evaluation. -/
instance {ε α : Type} [DecidableEq ε] [DecidableEq α] : DecidableEq (Except ε α) := fun x y =>
  match x, y with
  | .ok a, .ok b =>
    if h : a = b then isTrue (by rw [h]) else
      isFalse (by intro hc; injection hc; contradiction)
  | .error a, .error b =>
    if h : a = b then isTrue (by rw [h]) else
      isFalse (by intro hc; injection hc; contradiction)
  | .ok _, .error _ => isFalse (by intro hc; exact Except.noConfusion hc)
  | .error _, .ok _ => isFalse (by intro hc; exact Except.noConfusion hc)

/-- JS template/`String()` coercion of a possibly-undefined string value:
`undefined` stringifies to the text "undefined". -/
def jsUndefStr : Option JStr → JStr
  | some s => s
  | none => "undefined".data

/-- JS `a ? a : d` (same as `a || d`) on a possibly-undefined string:
the empty string is falsy. -/
def jsOrJ (o : Option JStr) (d : JStr) : JStr :=
  match o with
  | some s => if s.isEmpty then d else s
  | none => d

/-- JS `a ? a : d` / `a || d` on a possibly-undefined number: `0` is falsy. -/
def jsNumOr (o : Option Int) (d : Int) : Int :=
  match o with
  | some x => if x = 0 then d else x
  | none => d

/-- JS truthiness of a possibly-undefined string value. -/
def jsTruthyStr (o : Option JStr) : Bool :=
  match o with
  | some s => !s.isEmpty
  | none => false

/-- JS truthiness of a possibly-undefined boolean value. -/
def jsTruthyBool (o : Option Bool) : Bool :=
  match o with
  | some b => b
  | none => false

/-- Does `pat` occur in `l` starting at index `i`? -/
def matchAt (l pat : JStr) (i : Nat) : Bool :=
  pat.isPrefixOf (l.drop i)

/-- JS `String.prototype.indexOf` with a string argument:
index of the first occurrence of `pat` in `l`. -/
def indexOfSub (l pat : JStr) : Option Nat :=
  (List.range (l.length + 1)).find? (matchAt l pat)

/-- JS `String.prototype.lastIndexOf` with a string argument:
index of the last occurrence of `pat` in `l`. -/
def lastIndexOfSub (l pat : JStr) : Option Nat :=
  (List.range (l.length + 1)).reverse.find? (matchAt l pat)

/-- The whitespace class of the JS regex escape used in `appendChildToBody`. -/
def isJsSpace (c : Char) : Bool :=
  c = ' ' || c = '\t' || c = '\n' || c = '\r' || c = '\x0b' || c = '\x0c'

/-- Length of a match of the source regex (`<`, `/`, an optional whitespace
character, `body>`) at position `i` of `l`: 7 without the optional
whitespace character, 8 with it. -/
def closeBodyMatchLen (l : JStr) (i : Nat) : Option Nat :=
  if matchAt l ("</body>".data) i then some 7
  else
    match l.drop i with
    | '<' :: '/' :: w :: rest =>
      if isJsSpace w && ("body>".data).isPrefixOf rest then some 8 else none
    | _ => none

/-- First match of the closing-body regex in `l`: start position and length. -/
def findCloseBody (l : JStr) : Option (Nat × Nat) :=
  (List.range (l.length + 1)).findSome?
    (fun i => (closeBodyMatchLen l i).map (fun n => (i, n)))

/-- JS replacement-string semantics for `String.prototype.replace`:
`$$`, `$&`, a dollar followed by a backquote, and `$` followed by a quote
are expanded (`before`/`matched`/`after` are the parts of the subject
string around the match); the source regexes have no capture groups, so a
dollar followed by a digit stays literal, as in JS. -/
def expandReplacement (bf m af : JStr) : JStr → JStr
  | [] => []
  | c :: r =>
    if c = '$' then
      match r with
      | [] => ['$']
      | d :: r2 =>
        if d = '$' then '$' :: expandReplacement bf m af r2
        else if d = '&' then m ++ expandReplacement bf m af r2
        else if d = '\x60' then bf ++ expandReplacement bf m af r2
        else if d = '\x27' then af ++ expandReplacement bf m af r2
        else '$' :: expandReplacement bf m af (d :: r2)
    else c :: expandReplacement bf m af r

/-- JS `l.replace(pat, repl)` with a plain-string search value `pat` and a
replacement `repl` that carries no dollar character (the adapter only ever
replaces by the literal empty string here): first occurrence only. -/
def replaceFirstSub (l pat repl : JStr) : JStr :=
  match indexOfSub l pat with
  | none => l
  | some i => l.take i ++ repl ++ l.drop (i + pat.length)

/-- JS `s.replace(/\r?\n/g, '')`: drops every LF and the CR of a CRLF pair
(a lone CR is kept, as in the source regex). -/
def stripNewlines : JStr → JStr
  | [] => []
  | '\r' :: '\n' :: r => stripNewlines r
  | '\n' :: r => stripNewlines r
  | c :: r => c :: stripNewlines r

/-- Modelled from the spec: the host "string escaping" collaborator
(`libraries/htmlEscape/htmlEscape.js`, not under `src/` here); §4/§6 only
name it as the escaping utility used for inline-script construction: it
replaces the script-unsafe characters by JavaScript escape sequences. -/
def escapeUnsafeChars (s : JStr) : JStr :=
  (s.map (fun c =>
    if c = '<' then "\\u003C".data
    else if c = '>' then "\\u003E".data
    else if c = '/' then "\\u002F".data
    else if c = '\u2028' then "\\u2028".data
    else if c = '\u2029' then "\\u2029".data
    else [c])).flatten

/-- One character of a JSON string literal, as `JSON.stringify` escapes it. -/
def jsonEscapeChar (c : Char) : JStr :=
  if c = '"' then "\\\"".data
  else if c = '\\' then "\\\\".data
  else if c = '\n' then "\\n".data
  else if c = '\r' then "\\r".data
  else if c = '\t' then "\\t".data
  else if c = '\x08' then "\\b".data
  else if c = '\x0c' then "\\f".data
  else if c.toNat < 32 then
    "\\u00".data ++ [Nat.digitChar (c.toNat / 16), Nat.digitChar (c.toNat % 16)]
  else [c]

/-- Modelled from the spec: `JSON.stringify` (a JS builtin, not repository
code) applied to the one-field object `\x7b s: targetId \x7d` built in
`insertVASTMethodForAPV`. -/
def jsonStringifyS (targetId : JStr) : JStr :=
  "\x7b\"s\":\"".data ++ (targetId.map jsonEscapeChar).flatten ++ "\"\x7d".data

/-- An uppercase hexadecimal digit (used by percent-encoding). -/
def upperHexDigit (v : Nat) : Char :=
  if v < 10 then Nat.digitChar v else Char.ofNat (55 + v)

/-- UTF-8 bytes of a code point. -/
def utf8BytesOf (n : Nat) : List Nat :=
  if n < 128 then [n]
  else if n < 2048 then [192 + n / 64, 128 + n % 64]
  else if n < 65536 then [224 + n / 4096, 128 + (n / 64) % 64, 128 + n % 64]
  else [240 + n / 262144, 128 + (n / 4096) % 64, 128 + (n / 64) % 64, 128 + n % 64]

/-- A character `encodeURIComponent` leaves unescaped. -/
def isUriUnreserved (c : Char) : Bool :=
  c.isAlpha || c.isDigit || c = '-' || c = '_' || c = '.' || c = '!' ||
    c = '~' || c = '*' || c = '\x27' || c = '(' || c = ')'

/-- `encodeURIComponent` (a JS builtin): percent-encodes the UTF-8 bytes of
every reserved character. -/
def encodeURIComponentJs (s : JStr) : JStr :=
  (s.map (fun c =>
    if isUriUnreserved c then [c]
    else ((utf8BytesOf c.toNat).map
      (fun b => ['%', upperHexDigit (b / 16), upperHexDigit (b % 16)])).flatten)).flatten

/-! ## `modules/novatiqIdSystem.js` (src/unnamed/part_000) -/

/-- One substituted character of the snowflake template: JS evaluates
`(placeholder ^ Math.random() * 16 >> placeholder / 4).toString(16)`, i.e.
the placeholder digit XOR-ed with the truncated scaled draw `m` (in
`0..15`) shifted right by `placeholder / 4` (`0`, `0` or `2`). -/
def snowflakeChar (c : Char) (m : Nat) : Char :=
  Nat.digitChar ((c.toNat - 48) ^^^ (m >>> ((c.toNat - 48) / 4)))

/-- The global `replace(/[018]/g, snowflakeId)`: each matched placeholder
consumes the next random draw (`rand k % 16` models the `k`-th
`Math.random() * 16` truncation); other characters pass through. -/
def replace018 (rand : Nat → Nat) : JStr → Nat → JStr
  | [], _ => []
  | c :: r, k =>
    if c = '0' ∨ c = '1' ∨ c = '8' then
      snowflakeChar c (rand k % 16) :: replace018 rand r (k + 1)
    else
      c :: replace018 rand r k

/-- The template `[1e7] + -1e3 + -4e3 + -8e3 + -1e11 + 1e3`: JS string
concatenation of the stringified numbers (note the trailing `+ 1e3`). -/
def guidTemplate : JStr :=
  "10000000".data ++ "-1000".data ++ "-4000".data ++ "-8000".data ++
    "-100000000000".data ++ "1000".data

/-- `snowflakeId()` (the zero-argument call) with the per-call stream of
scaled random draws made explicit. -/
def snowflakeId (rand : Nat → Nat) : JStr :=
  replace018 rand guidTemplate 0

/-- The relevant field of the submodule's `config.params`
(`undefined` and `null` are both modelled by `none`). -/
structure NovatiqParams where
  sourceid : Option JStr := none
  deriving DecidableEq, Repr

/-- JS whitespace skipped by `parseInt`. -/
def isParseIntSpace (c : Char) : Bool :=
  c = ' ' || c = '\t' || c = '\n' || c = '\r' || c = '\x0b' || c = '\x0c'

/-- Is `c` a hexadecimal digit as accepted by `parseInt(str, 16)`? -/
def isHexDigitJs (c : Char) : Bool :=
  c.isDigit || ('a' ≤ c && c ≤ 'f') || ('A' ≤ c && c ≤ 'F')

/-- Numeric value of a hexadecimal digit character. -/
def hexVal (c : Char) : Nat :=
  if c.isDigit then c.toNat - 48
  else if 'a' ≤ c && c ≤ 'f' then c.toNat - 87
  else c.toNat - 55

/-- JS `parseInt(str, 16)`: skip leading whitespace, optional sign,
optional `0x`/`0X` prefix, then the longest run of hexadecimal digits;
`none` models `NaN` (no digits). -/
def jsParseIntHex (s : JStr) : Option Int :=
  let s1 := s.dropWhile isParseIntSpace
  let signAndRest : Int × JStr :=
    match s1 with
    | '-' :: r => (-1, r)
    | '+' :: r => (1, r)
    | _ => (1, s1)
  let s2 := signAndRest.2
  let s3 :=
    match s2 with
    | '0' :: x :: r => if x = 'x' ∨ x = 'X' then r else s2
    | _ => s2
  let ds := s3.takeWhile isHexDigitJs
  if ds.isEmpty then none
  else some (signAndRest.1 * Int.ofNat (ds.foldl (fun a c => a * 16 + hexVal c) 0))

/-- JS `a.toString(16)` for the result of `parseInt` (`NaN` stringifies to
the text "NaN"; negative values get a leading minus; digits lowercase). -/
def jsNumToStringHex (o : Option Int) : JStr :=
  match o with
  | none => "NaN".data
  | some n => if n < 0 then '-' :: Nat.toDigits 16 n.natAbs else Nat.toDigits 16 n.toNat

/-- The submodule's local `isHex(str)`:
`parseInt(str, 16).toString(16) === str`. -/
def novatiqIsHex (s : JStr) : Bool :=
  jsNumToStringHex (jsParseIntHex s) == s

/-- `novatiqIdSubmodule.getSrcId(configParams)`. -/
def getSrcId (configParams : NovatiqParams) : JStr :=
  match configParams.sourceid with
  | none => "000".data
  | some s =>
    if s.isEmpty then "000".data
    else if s.length < 3 ∨ s.length > 3 then "001".data
    else if novatiqIsHex s = false then "002".data
    else s

/-- Outcome of the single sync transport call. Modelled from the spec: the
host transport (`src/ajax.js` of the host, not under `src/` here) either
delivers an HTTP response, routed to the registered `success` handler with
its status code, or fails at the transport level, routed to an `error`
handler when one is registered (§4.2, §7). -/
inductive TransportOutcome where
  | response (status : Int)
  | failure
  deriving DecidableEq, Repr

/-- The outbound request `getId`'s `ajax(...)` call describes. -/
structure SyncRequest where
  url : JStr
  method : String
  withCredentials : Bool
  deriving DecidableEq, Repr

/-- The object the completion callback receives (`{ 'id': novatiqId }`). -/
structure IdPayload where
  id : JStr
  deriving DecidableEq, Repr

/-- Observable result of one `getId` invocation followed by the host
invoking the returned `callback` once. -/
structure GetIdRun where
  requests : List SyncRequest
  nlocvalue : Int
  cbResult : Option IdPayload
  deriving DecidableEq, Repr

/-- `novatiqIdSubmodule.getId(config)` run to completion: generates the
snowflake id, issues the one sync GET (`withCredentials: false`,
registering only a `success` handler), and — inside that success handler
only — updates `window.nlocvalue` (`0`, then `1` on status 200, `2` on
204) and invokes the completion callback with `{ id: novatiqId }`.
`nloc0` is the process-wide `window.nlocvalue` before the call; the
computed `srcId` is unused by the source after `getSrcId` returns. -/
def novatiqGetIdRun (rand : Nat → Nat) (outcome : TransportOutcome) (nloc0 : Int) : GetIdRun :=
  let novatiqId := snowflakeId rand
  let url := "https://spadsync.com/sync?sptoken=".data ++ novatiqId
  let req : SyncRequest := { url := url, method := "GET", withCredentials := false }
  match outcome with
  | .response status =>
    let n1 : Int := 0
    let n2 : Int := if status = 200 then 1 else if status = 204 then 2 else n1
    { requests := [req], nlocvalue := n2, cbResult := some { id := novatiqId } }
  | .failure =>
    { requests := [req], nlocvalue := nloc0, cbResult := none }

/-! ## `modules/adgenerationBidAdapter.js` -/

/-- The adapter parameters attached to a bid request (`bid.params`). -/
structure AdgParams where
  id : Option JStr := none
  debug : Option Bool := none
  debug_url : Option JStr := none
  marginTop : Option JStr := none
  deriving DecidableEq, Repr

/-- A valid bid request as the host hands it to the adapter: its impression
id and its adapter params (the only parts this adapter reads). -/
structure BidRequestJs where
  bidId : JStr
  params : AdgParams
  deriving DecidableEq, Repr

/-- `imp.ext` after the converter's `imp` hook ran
(`deepSetValue(imp, 'ext.params', bidRequest.params)`). -/
structure ImpExt where
  params : AdgParams
  deriving DecidableEq, Repr

/-- One ORTB impression as this adapter uses it. -/
structure Imp where
  id : JStr
  ext : ImpExt
  deriving DecidableEq, Repr

/-- The shared non-`imp` ORTB envelope fields (`otherParams` in the
source), carried opaquely. -/
structure OrtbRest where
  fields : List (String × String) := []
  deriving DecidableEq, Repr

/-- The `pb_ortb2` payload: the impression list plus the shared envelope. -/
structure PbOrtb2 where
  imp : List Imp
  rest : OrtbRest
  deriving DecidableEq, Repr

/-- Modelled from the spec: the external ORTB converter collaborator
(`libraries/ortbConverter`, not under `src/` here). §4.1: it turns the
batch of valid bid requests plus the shared auction context into one
impression per bid request, carrying that request's impression id; the
adapter's own `imp` hook (which is in the source) then stores the
request's params under `imp.ext.params`. -/
def toORTB (bidRequests : List BidRequestJs) (rest : OrtbRest) : PbOrtb2 :=
  { imp := bidRequests.map (fun b => { id := b.bidId, ext := { params := b.params } }),
    rest := rest }

/-- The `data` object of a built server request. -/
structure RequestData where
  locationId : JStr
  posall : String
  sdktype : String
  hb : String
  t : String
  currency : String
  pbver : String
  sdkname : String
  adapterver : String
  imark : String
  pb_ortb2 : PbOrtb2
  deriving DecidableEq, Repr

/-- The transport options of a built server request. -/
structure ReqOptions where
  withCredentials : Bool
  crossOrigin : Bool
  deriving DecidableEq, Repr

/-- One server request returned by `buildRequests`. -/
structure ServerRequest where
  method : String
  url : JStr
  data : RequestData
  options : ReqOptions
  deriving DecidableEq, Repr

/-- Source constant `DEBUG_URL`. -/
def DEBUG_URL : JStr := "https://api-test.scaleout.jp/adsv/v1".data

/-- Source constant `URL`. -/
def URL : JStr := "https://d.socdm.com/adsv/v1".data

/-- Source constant `ADGENE_PREBID_VERSION`. -/
def ADGENE_PREBID_VERSION : String := "1.6.4.dev"

/-- `getCurrencyType()`: reads the global `currency.adServerCurrency`
config entry (modelled as an explicit possibly-unset string); a set,
non-empty (truthy) value whose uppercasing equals "USD" yields "USD",
everything else yields "JPY". JS `toUpperCase` is modelled by the ASCII
`Char.toUpper` map, which agrees with it on the ASCII inputs this config
option carries. -/
def getCurrencyType (adServerCurrency : Option JStr) : String :=
  match adServerCurrency with
  | some s => if !s.isEmpty && (s.map Char.toUpper) == "USD".data then "USD" else "JPY"
  | none => "JPY"

/-- Modelled from the spec: host utility `getBidIdParameter('id', params)`
(`src/utils.js` of the host, not under `src/` here): the named param when
truthy, else the empty string (§4.1 step 3 "placement id"). -/
def getBidIdParameter_id (params : AdgParams) : JStr :=
  jsOrJ params.id []

/-- `spec.isBidRequestValid(bid)`: `!!(bid.params.id)`. -/
def isBidRequestValid (bid : BidRequestJs) : Bool :=
  jsTruthyStr bid.params.id

/-- `spec.buildRequests(validBidRequests, bidderRequest)` with the global
currency config made explicit. -/
def buildRequests (adServerCurrency : Option JStr)
    (validBidRequests : List BidRequestJs) (rest : OrtbRest) : List ServerRequest :=
  let pbOrtb2 := toORTB validBidRequests rest
  pbOrtb2.imp.map (fun singleImp =>
    let customParams := singleImp.ext.params
    let url :=
      if jsTruthyBool customParams.debug then jsOrJ customParams.debug_url DEBUG_URL
      else URL
    let id := getBidIdParameter_id customParams
    { method := "POST",
      url := url,
      data :=
        { locationId := id,
          posall := "SSPLOC",
          sdktype := "0",
          hb := "true",
          t := "json",
          currency := getCurrencyType adServerCurrency,
          pbver := "$prebid.version$",
          sdkname := "prebidjs",
          adapterver := ADGENE_PREBID_VERSION,
          imark := "1",
          pb_ortb2 := { imp := [singleImp], rest := pbOrtb2.rest } },
      options := { withCredentials := true, crossOrigin := true } })

/-- `location_params.option` of a response body. -/
structure LpOption where
  ad_type : Option JStr := none
  deriving DecidableEq, Repr

/-- `location_params` of a response body. -/
structure LocationParams where
  option : Option LpOption := none
  deriving DecidableEq, Repr

/-- One entry of the response body's `results` array. -/
structure AdResult where
  ad : Option JStr := none
  cpm : Option Int := none
  w : Option Int := none
  h : Option Int := none
  ttl : Option Int := none
  vastxml : Option JStr := none
  beacon : Option JStr := none
  deriving DecidableEq, Repr

/-- The `title` sub-object of a native asset. -/
structure AssetTitle where
  text : Option JStr := none
  deriving DecidableEq, Repr

/-- The `img` sub-object of a native asset. -/
structure AssetImg where
  url : Option JStr := none
  h : Option Int := none
  w : Option Int := none
  deriving DecidableEq, Repr

/-- The `data` sub-object of a native asset. -/
structure AssetData where
  value : Option JStr := none
  deriving DecidableEq, Repr

/-- One entry of `native_ad.assets`. -/
structure NativeAsset where
  id : Option Int := none
  title : Option AssetTitle := none
  img : Option AssetImg := none
  data : Option AssetData := none
  deriving DecidableEq, Repr

/-- `native_ad.link`. -/
structure NativeLink where
  url : Option JStr := none
  clicktrackers : Option (List JStr) := none
  deriving DecidableEq, Repr

/-- The `native_ad` object of a response body. -/
structure NativeAdBody where
  assets : Option (List NativeAsset) := none
  link : Option NativeLink := none
  imptrackers : Option (List JStr) := none
  deriving DecidableEq, Repr

/-- A server response body as this adapter reads it. -/
structure Body where
  results : Option (List AdResult) := none
  dealid : Option JStr := none
  adomain : Option (List JStr) := none
  native_ad : Option NativeAdBody := none
  beaconurl : Option JStr := none
  location_params : Option LocationParams := none
  deriving DecidableEq, Repr

/-- A server response (`interpretResponse` reads only `.body`). -/
structure ServerResponse where
  body : Body
  deriving DecidableEq, Repr

/-- `bidResponse.meta`. -/
structure BidMeta where
  advertiserDomains : List JStr
  deriving DecidableEq, Repr

/-- An image entry of the decoded native object. -/
structure NativeImage where
  url : Option JStr := none
  height : Option Int := none
  width : Option Int := none
  deriving DecidableEq, Repr

/-- The decoded `bidResponse.native` object (fields start absent; an
assignment of an undefined sub-value is collapsed to `none` as well). -/
structure NativeResult where
  title : Option JStr := none
  image : Option NativeImage := none
  icon : Option NativeImage := none
  sponsoredBy : Option JStr := none
  body : Option JStr := none
  cta : Option JStr := none
  privacyLink : Option JStr := none
  clickUrl : Option JStr := none
  clickTrackers : List JStr := []
  impressionTrackers : List JStr := []
  deriving DecidableEq, Repr

/-- One normalized bid as `interpretResponse` builds it. -/
structure BidResponse where
  requestId : JStr
  cpm : Int
  width : Int
  height : Int
  creativeId : AdResult
  dealId : JStr
  currency : String
  netRevenue : Bool
  ttl : Int
  meta : Option BidMeta := none
  native : Option NativeResult := none
  mediaType : Option String := none
  ad : Option JStr := none
  deriving DecidableEq, Repr

/-- `isUpperBillboard(locationParams)`. -/
def isUpperBillboard (locationParams : Option LocationParams) : Bool :=
  match locationParams with
  | some lp =>
    match lp.option with
    | some o =>
      match o.ad_type with
      | some t => t == "upper_billboard".data
      | none => false
    | none => false
  | none => false

/-- `createAPVTag()`. -/
def createAPVTag : JStr :=
  "<script type=\"text/javascript\" id=\"apv\" src=\"https://cdn.apvdr.com/js/VideoAd.min.js\"></script>".data

/-- `createADGBrowserMTag()`. -/
def createADGBrowserMTag : JStr :=
  "<script type=\"text/javascript\" src=\"https://i.socdm.com/sdk/js/adg-browser-m.js\"></script>".data

/-- `insertVASTMethodForAPV(targetId, vastXml)` (newlines stripped from the
VAST before interpolation into the single-line script literal). -/
def insertVASTMethodForAPV (targetId vastXml : JStr) : JStr :=
  "<script type=\"text/javascript\">(function()\x7b new APV.VideoAd(".data ++
    escapeUnsafeChars (jsonStringifyS targetId) ++
    ").load('".data ++ stripNewlines vastXml ++ "'); \x7d)();</script>".data

/-- `insertVASTMethodForADGBrowserM(vastXml, marginTop)`. -/
def insertVASTMethodForADGBrowserM (vastXml marginTop : JStr) : JStr :=
  "<script type=\"text/javascript\">window.ADGBrowserM.init(\x7bvastXml: '".data ++
    stripNewlines vastXml ++ "', marginTop: '".data ++ marginTop ++ "'\x7d);</script>".data

/-- `appendChildToBody(ad, data)`:
`ad.replace(regex, data + '</body>')` where the replacement is a JS
template string — an undefined `data` interpolates as the text
"undefined" — and dollar escapes in it are honoured by `replace`. -/
def appendChildToBody (ad : JStr) (data : Option JStr) : JStr :=
  match findCloseBody ad with
  | none => ad
  | some (i, n) =>
    ad.take i ++
      expandReplacement (ad.take i) ((ad.drop i).take n) (ad.drop (i + n))
        (jsUndefStr data ++ "</body>".data) ++
      ad.drop (i + n)

/-- `removeWrapper(ad)`: `none` models the JS `false` return. Note the
source's `ad.substr(bodyIndex, lastBodyIndex)` takes `lastBodyIndex` as a
LENGTH, modelled by `drop`-then-`take`. -/
def removeWrapper (ad : JStr) : Option JStr :=
  match indexOfSub ad ("<body>".data), lastIndexOfSub ad ("</body>".data) with
  | some bodyIndex, some lastBodyIndex =>
    some (replaceFirstSub
      (replaceFirstSub ((ad.drop bodyIndex).take lastBodyIndex) ("<body>".data) [])
      ("</body>".data) [])
  | _, _ => none

/-- `createAd(adResult, locationPrams, bidParams, requestId)`. Calling
`.replace` on an absent `ad` (no markup and no truthy VAST) is a
TypeError. The final two source lines call `removeWrapper` and return its
result when truthy (a JS `false` or an empty string both fall through to
the un-stripped markup). -/
def createAd (adResult : AdResult) (locationPrams : Option LocationParams)
    (bidParams : AdgParams) (requestId : JStr) : Except JsError JStr :=
  let ad0 := adResult.ad
  let ad1 : Option JStr :=
    match adResult.vastxml with
    | some vast =>
      if vast.isEmpty then ad0
      else if isUpperBillboard locationPrams then
        some ("<body>".data ++ createADGBrowserMTag ++
          insertVASTMethodForADGBrowserM vast (jsOrJ bidParams.marginTop ("0".data)) ++
          "</body>".data)
      else
        some ("<body><div id=\"apvad-".data ++ requestId ++ "\"></div>".data ++
          createAPVTag ++ insertVASTMethodForAPV requestId vast ++ "</body>".data)
    | none => ad0
  match ad1 with
  | none => .error .typeError
  | some ad =>
    let ad2 := appendChildToBody ad adResult.beacon
    .ok (match removeWrapper ad2 with
      | some s => if s.isEmpty then ad2 else s
      | none => ad2)

/-- `isNative(body)`: the body itself is always an object here, but
`body.native_ad.assets.length` on an absent `assets` is a TypeError. -/
def isNative (body : Body) : Except JsError Bool :=
  match body.native_ad with
  | none => .ok false
  | some na =>
    match na.assets with
    | none => .error .typeError
    | some assets => .ok (!assets.isEmpty)

/-- One iteration of `createNativeAd`'s asset switch: an asset whose typed
sub-object (`title`/`img`/`data`) is absent raises a TypeError; ids
outside the catalog are skipped. -/
def decodeAsset (native : NativeResult) (a : NativeAsset) : Except JsError NativeResult :=
  match a.id with
  | some 1 =>
    match a.title with
    | none => .error .typeError
    | some t => .ok { native with title := t.text }
  | some 2 =>
    match a.img with
    | none => .error .typeError
    | some im => .ok { native with image := some { url := im.url, height := im.h, width := im.w } }
  | some 3 =>
    match a.img with
    | none => .error .typeError
    | some im => .ok { native with icon := some { url := im.url, height := im.h, width := im.w } }
  | some 4 =>
    match a.data with
    | none => .error .typeError
    | some d => .ok { native with sponsoredBy := d.value }
  | some 5 =>
    match a.data with
    | none => .error .typeError
    | some d => .ok { native with body := d.value }
  | some 6 =>
    match a.data with
    | none => .error .typeError
    | some d => .ok { native with cta := d.value }
  | some 502 =>
    match a.data with
    | none => .error .typeError
    | some d => .ok { native with privacyLink := some (encodeURIComponentJs (jsUndefStr d.value)) }
  | _ => .ok native

/-- The `for` loop over the assets. -/
def decodeAssets : NativeResult → List NativeAsset → Except JsError NativeResult
  | native, [] => .ok native
  | native, a :: rest =>
    match decodeAsset native a with
    | .error e => .error e
    | .ok n2 => decodeAssets n2 rest

/-- `createNativeAd(nativeAd, beaconUrl)`: after the asset loop the source
reads `nativeAd.link.url` unconditionally (TypeError when `link` is
absent) and appends a truthy `beaconUrl` to the impression trackers. -/
def createNativeAd (nativeAd : Option NativeAdBody) (beaconUrl : Option JStr) :
    Except JsError NativeResult :=
  match nativeAd with
  | none => .ok {}
  | some na =>
    match na.assets with
    | none => .error .typeError
    | some assets =>
      if assets.isEmpty then .ok {}
      else
        match decodeAssets {} assets with
        | .error e => .error e
        | .ok native0 =>
          match na.link with
          | none => .error .typeError
          | some link =>
            let native1 : NativeResult :=
              { native0 with
                clickUrl := link.url,
                clickTrackers := (match link.clicktrackers with | some l => l | none => []),
                impressionTrackers := (match na.imptrackers with | some l => l | none => []) }
            .ok (if jsTruthyStr beaconUrl then
              { native1 with impressionTrackers := native1.impressionTrackers ++ [jsUndefStr beaconUrl] }
            else native1)

/-- `spec.interpretResponse(serverResponse, bidRequests)` with the global
currency config made explicit (the `bidRequests` argument is the single
originating `ServerRequest`, as the host passes it). `imp[0].id` on an
empty impression list is a TypeError. -/
def interpretResponse (adServerCurrency : Option JStr)
    (serverResponse : ServerResponse) (bidRequests : ServerRequest) :
    Except JsError (List BidResponse) :=
  let body := serverResponse.body
  match body.results with
  | none => .ok []
  | some [] => .ok []
  | some (adResult :: _) =>
    match bidRequests.data.pb_ortb2.imp with
    | [] => .error .typeError
    | targetImp :: _ =>
      let requestId := targetImp.id
      let base : BidResponse :=
        { requestId := requestId,
          cpm := jsNumOr adResult.cpm 0,
          width := jsNumOr adResult.w 1,
          height := jsNumOr adResult.h 1,
          creativeId := adResult,
          dealId := jsOrJ body.dealid [],
          currency := getCurrencyType adServerCurrency,
          netRevenue := true,
          ttl := jsNumOr adResult.ttl 10 }
      let withMeta : BidResponse :=
        match body.adomain with
        | some ds => if ds.isEmpty then base else { base with meta := some { advertiserDomains := ds } }
        | none => base
      match isNative body with
      | .error e => .error e
      | .ok true =>
        match createNativeAd body.native_ad body.beaconurl with
        | .error e => .error e
        | .ok n => .ok [{ withMeta with native := some n, mediaType := some ("native") }]
      | .ok false =>
        match createAd adResult body.location_params targetImp.ext.params requestId with
        | .error e => .error e
        | .ok a => .ok [{ withMeta with ad := some a }]

/-- Shape condition on one native asset under which `decodeAsset` cannot
raise: the typed sub-object selected by its id code is present (used by
the amended no-throw statement). -/
def wfAsset (a : NativeAsset) : Bool :=
  match a.id with
  | some 1 => a.title.isSome
  | some 2 => a.img.isSome
  | some 3 => a.img.isSome
  | some 4 => a.data.isSome
  | some 5 => a.data.isSome
  | some 6 => a.data.isSome
  | some 502 => a.data.isSome
  | _ => true

/-- Shape condition on a response body under which `interpretResponse`
cannot raise (used by the amended no-throw statement): any `native_ad`
carries an assets array (and, when that array is non-empty, well-formed
assets and a `link`); when the native branch is not taken, the first
result carries `ad` markup or a truthy `vastxml`. -/
def wfBody (body : Body) : Bool :=
  (match body.native_ad with
   | none => true
   | some na =>
     match na.assets with
     | none => false
     | some assets => assets.isEmpty || (assets.all wfAsset && na.link.isSome))
  &&
  (match body.results with
   | none => true
   | some [] => true
   | some (r :: _) =>
     (match body.native_ad with
      | some na =>
        match na.assets with
        | none => false
        | some assets => !assets.isEmpty
      | none => false)
     || (r.ad.isSome || jsTruthyStr r.vastxml))

/-! ## Concrete fixtures used by witnesses -/

/-- A well-formed native response body (title asset, link, beacon). -/
def nativeBodyW : Body :=
  { results := some [{}],
    native_ad := some
      { assets := some [{ id := some 1, title := some { text := some ("T".data) } }],
        link := some { url := some ("https://click.example".data) } },
    beaconurl := some ("https://beacon.example".data) }

/-- A valid bid request without debug params. -/
def brW : BidRequestJs :=
  { bidId := "b1".data, params := { id := some ("loc1".data) } }

/-- A valid bid request with the debug flag and a debug-url override. -/
def brD : BidRequestJs :=
  { bidId := "b2".data,
    params := { id := some ("loc2".data), debug := some true,
                debug_url := some ("https://dbg.example.test".data) } }

/-- A banner ad result with only markup set. -/
def arW : AdResult := { ad := some ("AD".data) }

/-- A response body with one banner result. -/
def bodyW : Body := { results := some [arW] }

/-- The corresponding server response. -/
def srW : ServerResponse := { body := bodyW }

/-- The server request `buildRequests` builds for `brW` (first of the
batch `[brW, brD]`, no currency config). -/
def reqW : ServerRequest :=
  { method := "POST",
    url := URL,
    data :=
      { locationId := "loc1".data,
        posall := "SSPLOC",
        sdktype := "0",
        hb := "true",
        t := "json",
        currency := "JPY",
        pbver := "$prebid.version$",
        sdkname := "prebidjs",
        adapterver := ADGENE_PREBID_VERSION,
        imark := "1",
        pb_ortb2 :=
          { imp := [{ id := "b1".data, ext := { params := { id := some ("loc1".data) } } }],
            rest := {} } },
    options := { withCredentials := true, crossOrigin := true } }

/-- The server request `buildRequests` builds for `brD` (second of the
batch `[brW, brD]`). -/
def reqD : ServerRequest :=
  { method := "POST",
    url := "https://dbg.example.test".data,
    data :=
      { locationId := "loc2".data,
        posall := "SSPLOC",
        sdktype := "0",
        hb := "true",
        t := "json",
        currency := "JPY",
        pbver := "$prebid.version$",
        sdkname := "prebidjs",
        adapterver := ADGENE_PREBID_VERSION,
        imark := "1",
        pb_ortb2 :=
          { imp := [{ id := "b2".data,
                      ext := { params := { id := some ("loc2".data), debug := some true,
                                           debug_url := some ("https://dbg.example.test".data) } } }],
            rest := {} } },
    options := { withCredentials := true, crossOrigin := true } }

/-- The bid `interpretResponse` builds from `srW` and `reqW`. -/
def bW : BidResponse :=
  { requestId := "b1".data,
    cpm := 0,
    width := 1,
    height := 1,
    creativeId := arW,
    dealId := [],
    currency := "JPY",
    netRevenue := true,
    ttl := 10,
    ad := some ("AD".data) }

/-! ## Helper lemmas -/

/-- Every hexadecimal digit value renders as a hexadecimal digit character. -/
theorem digitChar_hex : ∀ v : Nat, v < 16 → isHexDigitJs (Nat.digitChar v) = true := by
  decide

/-- XOR of two nibbles is a nibble. -/
theorem xor_sixteen (a b : Nat) (ha : a < 16) (hb : b < 16) : a ^^^ b < 16 := by
  have hx := Nat.xor_lt_two_pow (show a < 2 ^ 4 by omega) (show b < 2 ^ 4 by omega)
  simpa using hx

/-- A substituted snowflake placeholder always renders as a hex digit. -/
theorem sc_hex_mod (c : Char) (m : Nat) (hc : c = '0' ∨ c = '1' ∨ c = '8') :
    isHexDigitJs (snowflakeChar c (m % 16)) = true := by
  have hv : m % 16 < 16 := Nat.mod_lt _ (by norm_num)
  have hs : ∀ k, (m % 16) >>> k < 16 := fun k => by
    rw [Nat.shiftRight_eq_div_pow]
    exact lt_of_le_of_lt (Nat.div_le_self _ _) hv
  rcases hc with rfl | rfl | rfl <;> rw [snowflakeChar] <;>
    exact digitChar_hex _ (xor_sixteen _ _ (by decide) (hs _))

/-! ## Claim theorems -/

/-- C4 (code bug): the source's own log message documents the `002` branch
as "wrong format … expecting hex value only", and the spec's example says
the 3-character hexadecimal sourceid "1aF" passes through unchanged; but
`isHex` round-trips through `parseInt(str,16).toString(16)`, which
lowercases (and drops leading zeros), so the valid hex string "1aF" is
rejected with "002". The second conjunct checks every character of the
input is a hex digit. -/
theorem getSrcId_hex_example_bug :
    getSrcId { sourceid := some ("1aF".data) } = "002".data ∧
      ("1aF".data).all isHexDigitJs = true := by
  constructor
  · decide
  · decide

/-- C5: `getCurrencyType` returns "USD" exactly when the global
`currency.adServerCurrency` option is set and uppercases to "USD"
(case-insensitive match); in every other case — including unset — it
returns "JPY". -/
theorem getCurrencyType_usd_iff :
    ∀ cfg : Option JStr,
      (getCurrencyType cfg = "USD" ↔ ∃ s, cfg = some s ∧ s.map Char.toUpper = "USD".data) ∧
      (getCurrencyType cfg ≠ "USD" → getCurrencyType cfg = "JPY") := by
  intro cfg
  constructor
  · cases cfg with
    | none =>
      constructor
      · intro h
        exact absurd h (by decide)
      · rintro ⟨s2, hs2, _⟩
        exact Option.noConfusion hs2
    | some s =>
      constructor
      · intro hUSD
        by_cases h : (!s.isEmpty && (s.map Char.toUpper) == "USD".data) = true
        · exact ⟨s, rfl, eq_of_beq ((Bool.and_eq_true _ _).mp h).2⟩
        · exfalso
          simp only [getCurrencyType, if_neg h] at hUSD
          exact absurd hUSD (by decide)
      · rintro ⟨s2, hs2, hu⟩
        have hss : s2 = s := by injection hs2 with h2; exact h2.symm
        subst hss
        simp only [getCurrencyType]
        rw [if_pos]
        refine (Bool.and_eq_true _ _).mpr ⟨?_, beq_iff_eq.mpr hu⟩
        cases s2 with
        | nil => exact absurd hu (by decide)
        | cons c r => rfl
  · intro hne
    cases cfg with
    | none => rfl
    | some s =>
      simp only [getCurrencyType] at hne ⊢
      by_cases h : (!s.isEmpty && (s.map Char.toUpper) == "USD".data) = true
      · rw [if_pos h] at hne
        exact absurd rfl hne
      · rw [if_neg h]

/-- C5 witness: the theorem applied at concrete configs. -/
theorem getCurrencyType_usd_check :
    getCurrencyType (some ("usd".data)) = "USD" ∧ getCurrencyType none = "JPY" ∧
      getCurrencyType (some ("eur".data)) = "JPY" := by
  refine ⟨(getCurrencyType_usd_iff (some ("usd".data))).1.mpr ⟨"usd".data, rfl, by decide⟩, ?_, ?_⟩
  · exact (getCurrencyType_usd_iff none).2 (by decide)
  · exact (getCurrencyType_usd_iff (some ("eur".data))).2 (by decide)

/-- C10 (counterexample): the snowflake identifier has 40 characters, not
36 — the template carries a trailing `+ 1e3` block. -/
theorem snowflakeId_length_counterexample :
    (snowflakeId (fun _ => 0)).length = 40 ∧ (snowflakeId (fun _ => 0)).length ≠ 36 := by
  constructor
  · decide
  · decide

/-- C10 (amended): every identifier `snowflakeId` produces is a
40-character hyphenated string of five hex blocks of lengths 8, 4, 4, 4
and 16 (the RFC4122-style 8-4-4-4-12 template plus the four extra trailing
characters contributed by the `+ 1e3` term); every non-hyphen character is
a hexadecimal digit, each placeholder being substituted by XOR-ing its
nibble with the (shifted) scaled random draw. -/
theorem snowflakeId_shape_amended :
    ∀ rand : Nat → Nat,
      (snowflakeId rand).length = 40 ∧
      ∃ g1 g2 g3 g4 g5 : JStr,
        snowflakeId rand = g1 ++ '-' :: g2 ++ '-' :: g3 ++ '-' :: g4 ++ '-' :: g5 ∧
        g1.length = 8 ∧ g2.length = 4 ∧ g3.length = 4 ∧ g4.length = 4 ∧ g5.length = 16 ∧
        (∀ c : Char, (c ∈ g1 ∨ c ∈ g2 ∨ c ∈ g3 ∨ c ∈ g4 ∨ c ∈ g5) → isHexDigitJs c = true) := by
  intro rand
  have hsc : ∀ (d : Char) (k : Nat), (d = '0' ∨ d = '1' ∨ d = '8') →
      isHexDigitJs (snowflakeChar d (rand k % 16)) = true :=
    fun d k hd => sc_hex_mod d (rand k) hd
  refine ⟨rfl,
    [snowflakeChar '1' (rand 0 % 16), snowflakeChar '0' (rand 1 % 16),
     snowflakeChar '0' (rand 2 % 16), snowflakeChar '0' (rand 3 % 16),
     snowflakeChar '0' (rand 4 % 16), snowflakeChar '0' (rand 5 % 16),
     snowflakeChar '0' (rand 6 % 16), snowflakeChar '0' (rand 7 % 16)],
    [snowflakeChar '1' (rand 8 % 16), snowflakeChar '0' (rand 9 % 16),
     snowflakeChar '0' (rand 10 % 16), snowflakeChar '0' (rand 11 % 16)],
    ['4', snowflakeChar '0' (rand 12 % 16),
     snowflakeChar '0' (rand 13 % 16), snowflakeChar '0' (rand 14 % 16)],
    [snowflakeChar '8' (rand 15 % 16), snowflakeChar '0' (rand 16 % 16),
     snowflakeChar '0' (rand 17 % 16), snowflakeChar '0' (rand 18 % 16)],
    [snowflakeChar '1' (rand 19 % 16), snowflakeChar '0' (rand 20 % 16),
     snowflakeChar '0' (rand 21 % 16), snowflakeChar '0' (rand 22 % 16),
     snowflakeChar '0' (rand 23 % 16), snowflakeChar '0' (rand 24 % 16),
     snowflakeChar '0' (rand 25 % 16), snowflakeChar '0' (rand 26 % 16),
     snowflakeChar '0' (rand 27 % 16), snowflakeChar '0' (rand 28 % 16),
     snowflakeChar '0' (rand 29 % 16), snowflakeChar '0' (rand 30 % 16),
     snowflakeChar '1' (rand 31 % 16), snowflakeChar '0' (rand 32 % 16),
     snowflakeChar '0' (rand 33 % 16), snowflakeChar '0' (rand 34 % 16)],
    rfl, rfl, rfl, rfl, rfl, rfl, ?_⟩
  intro c hc
  rcases hc with hc | hc | hc | hc | hc
  · simp only [List.mem_cons, List.not_mem_nil, or_false] at hc
    rcases hc with rfl | rfl | rfl | rfl | rfl | rfl | rfl | rfl <;>
      exact hsc _ _ (by decide)
  · simp only [List.mem_cons, List.not_mem_nil, or_false] at hc
    rcases hc with rfl | rfl | rfl | rfl <;> exact hsc _ _ (by decide)
  · simp only [List.mem_cons, List.not_mem_nil, or_false] at hc
    rcases hc with rfl | rfl | rfl | rfl
    · decide
    · exact hsc _ _ (by decide)
    · exact hsc _ _ (by decide)
    · exact hsc _ _ (by decide)
  · simp only [List.mem_cons, List.not_mem_nil, or_false] at hc
    rcases hc with rfl | rfl | rfl | rfl <;> exact hsc _ _ (by decide)
  · simp only [List.mem_cons, List.not_mem_nil, or_false] at hc
    rcases hc with rfl | rfl | rfl | rfl | rfl | rfl | rfl | rfl | rfl | rfl | rfl | rfl |
      rfl | rfl | rfl | rfl <;> exact hsc _ _ (by decide)

/-- C10 witness: the amended theorem applied to a concrete random stream. -/
theorem snowflakeId_shape_check : (snowflakeId (fun k => k + 5)).length = 40 :=
  (snowflakeId_shape_amended (fun k => k + 5)).1

/-- C8 (counterexample): when the sync transport fails, the only handler
`getId` registered is the `success` one, so the completion callback is
never invoked — contradicting "the completion callback is invoked …
including transport failure". -/
theorem getId_failure_counterexample :
    (novatiqGetIdRun (fun _ => 0) .failure 0).cbResult = none ∧
      ∀ p : IdPayload, (novatiqGetIdRun (fun _ => 0) .failure 0).cbResult ≠ some p :=
  ⟨rfl, fun _ h => Option.noConfusion h⟩

/-- C8 (amended): every `getId` run issues exactly one GET to the fixed
sync endpoint with credentials disabled; when the transport delivers a
response, the process-wide indicator becomes 1 on HTTP 200, 2 on HTTP 204
and 0 on any other delivered status, and the completion callback receives
the generated id; when the transport fails, no handler is registered, so
the indicator keeps its previous value and the callback is not invoked. -/
theorem getId_sync_amended :
    ∀ (rand : Nat → Nat) (nloc0 : Int),
      (∀ status : Int,
        (novatiqGetIdRun rand (.response status) nloc0).requests =
          [{ url := "https://spadsync.com/sync?sptoken=".data ++ snowflakeId rand,
             method := "GET", withCredentials := false }] ∧
        (novatiqGetIdRun rand (.response status) nloc0).nlocvalue =
          (if status = 200 then 1 else if status = 204 then 2 else 0) ∧
        (novatiqGetIdRun rand (.response status) nloc0).cbResult =
          some { id := snowflakeId rand }) ∧
      ((novatiqGetIdRun rand .failure nloc0).requests =
          [{ url := "https://spadsync.com/sync?sptoken=".data ++ snowflakeId rand,
             method := "GET", withCredentials := false }] ∧
        (novatiqGetIdRun rand .failure nloc0).nlocvalue = nloc0 ∧
        (novatiqGetIdRun rand .failure nloc0).cbResult = none) :=
  fun _ _ => ⟨fun _ => ⟨rfl, rfl, rfl⟩, rfl, rfl, rfl⟩

/-- C2: for a batch of N valid bid requests, `buildRequests` returns
exactly N server requests; each is a POST with `withCredentials` and
`crossOrigin` enabled, embeds exactly the corresponding single impression
under the nested `pb_ortb2` field, and targets the debug endpoint (or the
truthy per-request `debug_url` override) when the impression's debug param
is set, otherwise the production endpoint. -/
theorem buildRequests_batch :
    ∀ (cfg : Option JStr) (batch : List BidRequestJs) (rest : OrtbRest),
      (buildRequests cfg batch rest).length = batch.length ∧
      (∀ (i : Nat) (req : ServerRequest) (br : BidRequestJs),
        (buildRequests cfg batch rest)[i]? = some req →
        batch[i]? = some br →
        req.method = "POST" ∧
        req.options.withCredentials = true ∧
        req.options.crossOrigin = true ∧
        req.data.pb_ortb2.imp = [{ id := br.bidId, ext := { params := br.params } }] ∧
        req.url = (if jsTruthyBool br.params.debug
          then jsOrJ br.params.debug_url DEBUG_URL else URL)) := by
  intro cfg batch rest
  constructor
  · simp [buildRequests, toORTB]
  · intro i req br h1 h2
    simp only [buildRequests, toORTB, List.getElem?_map, h2, Option.map_some'] at h1
    injection h1 with h1
    subst h1
    exact ⟨rfl, rfl, rfl, rfl, rfl⟩

/-- C2 witness: the theorem applied to the concrete batch `[brW, brD]`. -/
theorem buildRequests_batch_check :
    (buildRequests none [brW, brD] {}).length = 2 ∧
    reqW.method = "POST" ∧ reqW.options.withCredentials = true ∧
    reqW.options.crossOrigin = true ∧ reqW.url = URL ∧
    reqD.url = "https://dbg.example.test".data := by
  have h := buildRequests_batch none [brW, brD] {}
  have h0 := h.2 0 reqW brW (by decide) (by decide)
  have h1 := h.2 1 reqD brD (by decide) (by decide)
  exact ⟨h.1, h0.1, h0.2.1, h0.2.2.1, h0.2.2.2.2, h1.2.2.2.2⟩

/-- C1: for every batch, every request `buildRequests` built from it and
every response `interpretResponse` successfully parses against that
request, the returned bid's `requestId` equals the id of the single
impression embedded in that request's `pb_ortb2` payload, which is the
originating bid request's impression id; the id is read back out of the
request payload, so this holds for every response body. -/
theorem roundtrip_requestId :
    ∀ (cfg : Option JStr) (batch : List BidRequestJs) (rest : OrtbRest) (i : Nat)
      (sr : ServerResponse) (req : ServerRequest) (bids : List BidResponse) (b : BidResponse),
      (buildRequests cfg batch rest)[i]? = some req →
      interpretResponse cfg sr req = .ok bids →
      b ∈ bids →
      ∃ br : BidRequestJs, batch[i]? = some br ∧
        req.data.pb_ortb2.imp.map (fun im => im.id) = [br.bidId] ∧
        b.requestId = br.bidId := by
  intro cfg batch rest i sr req bids b h1 h2 hb
  cases hbr : batch[i]? with
  | none =>
    simp only [buildRequests, toORTB, List.getElem?_map, hbr, Option.map_none'] at h1
    exact Option.noConfusion h1
  | some br =>
    simp only [buildRequests, toORTB, List.getElem?_map, hbr, Option.map_some'] at h1
    injection h1 with h1
    subst h1
    refine ⟨br, rfl, rfl, ?_⟩
    obtain ⟨body⟩ := sr
    obtain ⟨res, de, ad, na, bu, lp⟩ := body
    rcases res with _ | ⟨_ | ⟨r, rs⟩⟩
    · simp only [interpretResponse] at h2
      injection h2 with h2
      subst h2
      exact absurd hb (by simp)
    · simp only [interpretResponse] at h2
      injection h2 with h2
      subst h2
      exact absurd hb (by simp)
    · simp only [interpretResponse] at h2
      split at h2
      · exact absurd h2 (by simp)
      · split at h2
        · exact absurd h2 (by simp)
        · injection h2 with h2
          subst h2
          simp only [List.mem_singleton] at hb
          subst hb
          rcases ad with _ | (_ | ⟨d0, ds0⟩) <;> rfl
      · split at h2
        · exact absurd h2 (by simp)
        · injection h2 with h2
          subst h2
          simp only [List.mem_singleton] at hb
          subst hb
          rcases ad with _ | (_ | ⟨d0, ds0⟩) <;> rfl

/-- C1 witness: the round-trip theorem applied to the concrete batch,
request, and one-result banner response. -/
theorem roundtrip_requestId_check :
    bW.requestId = brW.bidId ∧
      reqW.data.pb_ortb2.imp.map (fun im => im.id) = [brW.bidId] := by
  obtain ⟨br, hbr, himp, hid⟩ :=
    roundtrip_requestId none [brW, brD] {} 0 srW reqW [bW] bW (by decide) (by decide) (by decide)
  have hb : brW = br := by
    have h0 : ([brW, brD][0]? : Option BidRequestJs) = some brW := rfl
    rw [h0] at hbr
    injection hbr
  rw [hb]
  exact ⟨hid, himp⟩

/-- C3: a body with absent or empty `results` parses to the empty bid
list; otherwise exactly one bid is built from the first result — extra
results are ignored (replacing the results by just the first one yields
the same output) — with cpm defaulting to 0, width and height to 1 and
ttl to 10 when absent, and `meta.advertiserDomains` attached exactly when
the body carries a non-empty `adomain` array. -/
theorem interpretResponse_results :
    ∀ (cfg : Option JStr) (sr : ServerResponse) (req : ServerRequest),
      ((sr.body.results = none ∨ sr.body.results = some []) →
        interpretResponse cfg sr req = .ok []) ∧
      (∀ (r : AdResult) (rs : List AdResult) (bids : List BidResponse),
        sr.body.results = some (r :: rs) →
        interpretResponse cfg sr req = .ok bids →
        ∃ b : BidResponse, bids = [b] ∧
          (r.cpm = none → b.cpm = 0) ∧
          (r.w = none → b.width = 1) ∧
          (r.h = none → b.height = 1) ∧
          (r.ttl = none → b.ttl = 10) ∧
          (match sr.body.adomain with
            | some ds =>
              if ds.isEmpty then b.meta = none
              else b.meta = some { advertiserDomains := ds }
            | none => b.meta = none) ∧
          interpretResponse cfg { body := { sr.body with results := some [r] } } req =
            .ok bids) := by
  intro cfg sr req
  obtain ⟨body⟩ := sr
  obtain ⟨res, de, ad, na, bu, lp⟩ := body
  constructor
  · rintro (rfl | rfl) <;> rfl
  · intro r rs bids hres h2
    simp only at hres
    subst hres
    have h2' := h2
    simp only [interpretResponse] at h2
    repeat' split at h2
    all_goals try contradiction
    all_goals
      injection h2 with h2
    all_goals
      subst h2
    all_goals
      refine ⟨_, rfl, fun hc => by simp [hc, jsNumOr], fun hc => by simp [hc, jsNumOr],
        fun hc => by simp [hc, jsNumOr], fun hc => by simp [hc, jsNumOr], ?_, h2'⟩
    all_goals simp_all

/-- C3 witness: the theorem applied to an empty body and to the concrete
one-result banner response (all defaulted fields). -/
theorem interpretResponse_results_check :
    interpretResponse none { body := {} } reqW = .ok [] ∧
    bW.cpm = 0 ∧ bW.width = 1 ∧ bW.height = 1 ∧ bW.ttl = 10 ∧ bW.meta = none := by
  obtain ⟨b, hb, hcpm, hw, hh, httl, hmeta, _⟩ :=
    (interpretResponse_results none srW reqW).2 arW [] [bW] rfl (by decide)
  injection hb with hb1 _
  refine ⟨(interpretResponse_results none { body := {} } reqW).1 (Or.inl rfl),
    ?_, ?_, ?_, ?_, ?_⟩
  · rw [hb1]; exact hcpm rfl
  · rw [hb1]; exact hw rfl
  · rw [hb1]; exact hh rfl
  · rw [hb1]; exact httl rfl
  · rw [hb1]; exact hmeta

/-- `createAd` succeeds whenever the result has markup or a truthy VAST. -/
theorem createAd_ok (r : AdResult) (lp : Option LocationParams) (bp : AdgParams) (rid : JStr)
    (h : (r.ad.isSome || jsTruthyStr r.vastxml) = true) :
    ∃ a, createAd r lp bp rid = .ok a := by
  rcases hvx : r.vastxml with _ | v
  · rw [hvx] at h
    simp only [jsTruthyStr, Bool.or_false] at h
    rcases had : r.ad with _ | a0
    · rw [had] at h
      exact absurd h (by simp)
    · exact ⟨_, by simp only [createAd, hvx, had] <;> rfl⟩
  · by_cases hv : v.isEmpty
    · rw [hvx] at h
      simp only [jsTruthyStr, hv, Bool.not_true, Bool.or_false] at h
      rcases had : r.ad with _ | a0
      · rw [had] at h
        exact absurd h (by simp)
      · exact ⟨_, by simp only [createAd, hvx, had, hv, if_true] <;> rfl⟩
    · by_cases hub : isUpperBillboard lp
      · exact ⟨_, by simp only [createAd, hvx, hv, hub, if_false, if_true] <;> rfl⟩
      · exact ⟨_, by simp only [createAd, hvx, hv, hub, if_false] <;> rfl⟩

/-- `decodeAsset` succeeds on a well-formed asset. -/
theorem decodeAsset_ok (native : NativeResult) (a : NativeAsset) (h : wfAsset a = true) :
    ∃ n, decodeAsset native a = .ok n := by
  cases hda : decodeAsset native a with
  | ok n => exact ⟨n, rfl⟩
  | error e =>
    exfalso
    unfold decodeAsset at hda
    repeat' split at hda
    all_goals try exact Except.noConfusion hda
    all_goals simp_all [wfAsset]

/-- The asset loop succeeds on a list of well-formed assets. -/
theorem decodeAssets_ok : ∀ (assets : List NativeAsset) (native : NativeResult),
    assets.all wfAsset = true → ∃ n, decodeAssets native assets = .ok n := by
  intro assets
  induction assets with
  | nil => exact fun native _ => ⟨native, rfl⟩
  | cons a rest ih =>
    intro native hall
    simp only [List.all_cons, Bool.and_eq_true] at hall
    obtain ⟨n1, hn1⟩ := decodeAsset_ok native a hall.1
    obtain ⟨n2, hn2⟩ := ih n1 hall.2
    exact ⟨n2, by simp only [decodeAssets, hn1, hn2]⟩

/-- `createNativeAd` succeeds on a well-formed `native_ad`. -/
theorem createNativeAd_ok (na : NativeAdBody) (bu : Option JStr) (assets : List NativeAsset)
    (hassets : na.assets = some assets) (hall : assets.all wfAsset = true)
    (hlink : na.link.isSome = true) :
    ∃ n, createNativeAd (some na) bu = .ok n := by
  rcases assets with _ | ⟨a0, as0⟩
  · exact ⟨{}, by simp [createNativeAd, hassets]⟩
  · obtain ⟨link, hl⟩ := Option.isSome_iff_exists.mp hlink
    obtain ⟨n0, hn0⟩ := decodeAssets_ok (a0 :: as0) {} hall
    exact ⟨_, by simp only [createNativeAd, hassets, hn0, hl, List.isEmpty, if_false] <;> rfl⟩

/-- C9 (counterexample): a body whose `native_ad` lacks an assets array
makes `interpretResponse` raise a TypeError instead of substituting a
default (the same happens for a first result with neither `ad` nor
`vastxml`). -/
theorem interpretResponse_throws_counterexample :
    interpretResponse none { body := { results := some [{}], native_ad := some {} } } reqW =
      .error .typeError := by decide

/-- C9 (amended): `interpretResponse` does not throw — it returns a bid
list — for every response body satisfying the shape conditions `wfBody`
(any `native_ad` carries an assets array, well-formed assets and a link
when non-empty; the first result carries markup or truthy VAST in the
banner branch), given a request with a non-empty impression list; absent
scalar fields are covered by default substitution. -/
theorem interpretResponse_total_amended :
    ∀ (cfg : Option JStr) (sr : ServerResponse) (req : ServerRequest),
      wfBody sr.body = true →
      req.data.pb_ortb2.imp ≠ [] →
      ∃ bids, interpretResponse cfg sr req = .ok bids := by
  intro cfg sr req hwf himp
  obtain ⟨body⟩ := sr
  obtain ⟨res, de, ad, na, bu, lp⟩ := body
  rcases res with _ | (_ | ⟨r, rs⟩)
  · exact ⟨[], rfl⟩
  · exact ⟨[], rfl⟩
  rcases himp' : req.data.pb_ortb2.imp with _ | ⟨t, ti⟩
  · exact absurd himp' himp
  simp only [wfBody] at hwf
  obtain ⟨hw1, hw2⟩ := (Bool.and_eq_true _ _).mp hwf
  rcases na with _ | nav
  · have hw2' : (r.ad.isSome || jsTruthyStr r.vastxml) = true := by simpa using hw2
    obtain ⟨a, ha⟩ := createAd_ok r lp t.ext.params t.id hw2'
    have hni : isNative
        ({ results := some (r :: rs), dealid := de, adomain := ad, native_ad := none,
           beaconurl := bu, location_params := lp } : Body) = Except.ok false := rfl
    exact ⟨_, by simp only [interpretResponse, himp']; rw [hni, ha]⟩
  · have hw1' : (match nav.assets with
        | none => false
        | some assets => assets.isEmpty || (assets.all wfAsset && nav.link.isSome)) = true := hw1
    have hw2x : ((match nav.assets with
        | none => false
        | some assets => !assets.isEmpty) || (r.ad.isSome || jsTruthyStr r.vastxml)) = true := hw2
    rcases hassets : nav.assets with _ | assets
    · rw [hassets] at hw1'
      exact absurd hw1' (by simp)
    · rcases assets with _ | ⟨a0, as0⟩
      · rw [hassets] at hw2x
        have hw2' : (r.ad.isSome || jsTruthyStr r.vastxml) = true := by simpa using hw2x
        obtain ⟨a, ha⟩ := createAd_ok r lp t.ext.params t.id hw2'
        have hni : isNative
            ({ results := some (r :: rs), dealid := de, adomain := ad, native_ad := some nav,
               beaconurl := bu, location_params := lp } : Body) = Except.ok false := by
          simp [isNative, hassets]
        exact ⟨_, by simp only [interpretResponse, himp']; rw [hni, ha]⟩
      · rw [hassets] at hw1'
        simp only [List.isEmpty_cons, Bool.false_or, Bool.and_eq_true] at hw1'
        obtain ⟨n, hn⟩ := createNativeAd_ok nav bu (a0 :: as0) hassets hw1'.1 hw1'.2
        have hni : isNative
            ({ results := some (r :: rs), dealid := de, adomain := ad, native_ad := some nav,
               beaconurl := bu, location_params := lp } : Body) = Except.ok true := by
          simp [isNative, hassets]
        exact ⟨_, by simp only [interpretResponse, himp']; rw [hni, hn]⟩

/-- C9 witness: the amended theorem applied to a concrete well-formed
native body. -/
theorem interpretResponse_total_check :
    ∃ bids, interpretResponse none { body := nativeBodyW } reqW = Except.ok bids :=
  interpretResponse_total_amended none { body := nativeBodyW } reqW (by decide) (by decide)

/-- A list is a `isPrefixOf`-prefix of itself followed by anything. -/
theorem isPrefixOf_append_self (p r : JStr) : p.isPrefixOf (p ++ r) = true :=
  List.isPrefixOf_iff_prefix.mpr (List.prefix_append p r)

/-- `matchAt` succeeds at the junction of an append with the pattern. -/
theorem matchAt_append_self (a p : JStr) : matchAt (a ++ p) p a.length = true := by
  unfold matchAt
  rw [List.drop_left]
  exact List.isPrefixOf_iff_prefix.mpr (List.prefix_refl p)

/-- `matchAt` fails when the pattern would overrun the end of the string. -/
theorem matchAt_overrun (l p : JStr) (i : Nat) (hp : 1 ≤ p.length)
    (h : l.length < i + p.length) : matchAt l p i = false := by
  unfold matchAt
  cases hpre : p.isPrefixOf (l.drop i) with
  | false => rfl
  | true =>
    exfalso
    have h1 := (List.isPrefixOf_iff_prefix.mp hpre).length_le
    rw [List.length_drop] at h1
    omega

/-- `find?` over `range (n+1)` returns 0 when the predicate holds there. -/
theorem find?_range_zero (n : Nat) (f : Nat → Bool) (h : f 0 = true) :
    (List.range (n + 1)).find? f = some 0 := by
  rw [List.range_succ_eq_map n]
  exact List.find?_cons_of_pos _ h

/-- `find?` over a reversed range finds the largest index satisfying the
predicate. -/
theorem find?_reverse_range (f : Nat → Bool) :
    ∀ (n m : Nat), m ≤ n → f m = true → (∀ j, m < j → f j = false) →
      (List.range (n + 1)).reverse.find? f = some m := by
  intro n
  induction n with
  | zero =>
    intro m hm h1 _
    have hm0 : m = 0 := by omega
    subst hm0
    have h0 : (List.range 1).reverse = [0] := rfl
    rw [h0]
    exact List.find?_cons_of_pos _ h1
  | succ n ih =>
    intro m hm h1 h2
    have hrev : (List.range (n + 2)).reverse = (n + 1) :: (List.range (n + 1)).reverse := by
      rw [List.range_succ, List.reverse_append]
      rfl
    rw [hrev]
    by_cases hc : m = n + 1
    · subst hc
      exact List.find?_cons_of_pos _ h1
    · have hfn : f (n + 1) = false := h2 _ (by omega)
      rw [List.find?_cons_of_neg _ (by simp [hfn])]
      exact ih m (by omega) h1 h2

/-- `indexOfSub` returns 0 when the pattern is a prefix of the string. -/
theorem indexOfSub_zero_of_isPrefixOf (l p : JStr) (h : p.isPrefixOf l = true) :
    indexOfSub l p = some 0 := by
  unfold indexOfSub
  apply find?_range_zero
  exact h

/-- `lastIndexOfSub` of a string ending in the pattern is the junction
index (a later occurrence would overrun the end). -/
theorem lastIndexOfSub_concat (a p : JStr) (hp : 1 ≤ p.length) :
    lastIndexOfSub (a ++ p) p = some a.length := by
  unfold lastIndexOfSub
  rw [List.length_append]
  apply find?_reverse_range
  · omega
  · exact matchAt_append_self a p
  · intro j hj
    apply matchAt_overrun _ _ _ hp
    rw [List.length_append]
    omega

/-- Replacing a pattern that is a prefix substitutes at position 0. -/
theorem replaceFirstSub_head (p r t : JStr) : replaceFirstSub (p ++ r) p t = t ++ r := by
  unfold replaceFirstSub
  rw [indexOfSub_zero_of_isPrefixOf _ _ (isPrefixOf_append_self p r)]
  simp [List.drop_left]

/-- Replacing an absent pattern leaves the string unchanged. -/
theorem replaceFirstSub_none (l p t : JStr) (h : indexOfSub l p = none) :
    replaceFirstSub l p t = l := by
  unfold replaceFirstSub
  rw [h]

/-- A replacement string without a dollar character expands to itself. -/
theorem expandReplacement_no_dollar (bf m af : JStr) :
    ∀ r : JStr, '$' ∉ r → expandReplacement bf m af r = r := by
  intro r
  induction r with
  | nil => intro _; rfl
  | cons c cr ih =>
    intro h
    have hc : ¬(c = '$') := by
      intro hcc
      subst hcc
      exact h (List.mem_cons_self _ _)
    have hcr : '$' ∉ cr := fun hx => h (List.mem_cons_of_mem _ hx)
    rw [expandReplacement.eq_def]
    dsimp only
    rw [if_neg hc, ih hcr]

/-- The program's newline stripping leaves no LF in its output. -/
theorem stripNewlines_no_nl : ∀ v : JStr, '\n' ∉ stripNewlines v := by
  intro v
  induction v using stripNewlines.induct with
  | case1 => rw [stripNewlines.eq_1]; exact List.not_mem_nil _
  | case2 r ih => rw [stripNewlines.eq_2]; exact ih
  | case3 r ih => rw [stripNewlines.eq_3]; exact ih
  | case4 c r h1 h2 ih =>
    rw [stripNewlines.eq_4 c r h1 h2]
    intro hmem
    rcases List.mem_cons.mp hmem with heq | hmem2
    · exact h2 heq.symm
    · exact ih hmem2

/-- `appendChildToBody` on a body-wrapped string splices the beacon text
(the text "undefined" when the beacon is absent) right before the closing
body tag, provided the only regex match is the final one and the beacon
text carries no dollar escape. -/
theorem appendChild_wrap (T : JStr) (b : Option JStr)
    (h1 : findCloseBody (("<body>".data ++ T) ++ "</body>".data) = some (6 + T.length, 7))
    (h3 : '$' ∉ jsUndefStr b) :
    appendChildToBody (("<body>".data ++ T) ++ "</body>".data) b =
      ("<body>".data ++ (T ++ jsUndefStr b)) ++ "</body>".data := by
  unfold appendChildToBody
  rw [h1]
  dsimp only
  have hl : ("<body>".data ++ T).length = 6 + T.length := by
    rw [List.length_append]
    rfl
  have hTake : (("<body>".data ++ T) ++ "</body>".data).take (6 + T.length) =
      "<body>".data ++ T := by
    rw [← hl, List.take_left]
  have hDrop0 : (("<body>".data ++ T) ++ "</body>".data).drop (6 + T.length + 7) = [] := by
    apply List.drop_eq_nil_of_le
    rw [List.length_append, hl]
    have h7 : ("</body>".data : JStr).length = 7 := rfl
    omega
  have hdollar : '$' ∉ jsUndefStr b ++ "</body>".data := by
    intro hx
    rcases List.mem_append.mp hx with hx | hx
    · exact h3 hx
    · exact absurd hx (by decide)
  rw [hTake, hDrop0, expandReplacement_no_dollar _ _ _ _ hdollar]
  simp [List.append_assoc]

/-- `removeWrapper` on a body-wrapped string whose inner part contains no
closing-body tag returns exactly the inner part. -/
theorem removeWrapper_wrap (U : JStr) (hU : indexOfSub U ("</body>".data) = none) :
    removeWrapper (("<body>".data ++ U) ++ "</body>".data) = some U := by
  unfold removeWrapper
  have hIdx : indexOfSub (("<body>".data ++ U) ++ "</body>".data) ("<body>".data) = some 0 := by
    apply indexOfSub_zero_of_isPrefixOf
    rw [List.append_assoc]
    exact isPrefixOf_append_self _ _
  have hLast : lastIndexOfSub (("<body>".data ++ U) ++ "</body>".data) ("</body>".data) =
      some (("<body>".data ++ U).length) := lastIndexOfSub_concat _ _ (by decide)
  rw [hIdx, hLast]
  simp only [List.drop_zero, List.take_left]
  rw [replaceFirstSub_head]
  simp only [List.nil_append]
  rw [replaceFirstSub_none _ _ _ hU]

/-- C6 (counterexample): with no beacon supplied, `createAd` still
interpolates — the JS template turns the undefined beacon into the text
"undefined" — and when the first `<body>` is not at index 0 the
`substr(bodyIndex, lastBodyIndex)` slicing (length, not end index) skews
the extraction: the markup `A<body>X</body>` yields `Xundefined<`, not the
inner content `X` that the claim predicts. -/
theorem createAd_beacon_counterexample :
    createAd { ad := some ("A<body>X</body>".data) } none {} ("rid".data) =
      .ok ("Xundefined<".data) ∧ ("Xundefined<".data : JStr) ≠ "X".data := by
  constructor
  · decide
  · decide

/-- C6 (amended): a beacon string — the field's value, or the text
"undefined" when the response supplies none — is interpolated immediately
before the first closing-body match whenever one exists; when the markup
starts with `<body>`, ends with `</body>`, and carries no other body tags,
the non-empty inner content (with the interpolated beacon text) is
returned with the wrapper tags stripped; markup with no `<body>` and no
closing-body match is returned unchanged. -/
theorem createAd_postprocess_amended :
    (∀ (X : JStr) (b : Option JStr) (lp : Option LocationParams) (bp : AdgParams) (rid : JStr),
      findCloseBody (("<body>".data ++ X) ++ "</body>".data) = some (6 + X.length, 7) →
      indexOfSub (X ++ jsUndefStr b) ("</body>".data) = none →
      '$' ∉ jsUndefStr b →
      (X ++ jsUndefStr b).isEmpty = false →
      createAd { ad := some (("<body>".data ++ X) ++ "</body>".data), beacon := b } lp bp rid =
        .ok (X ++ jsUndefStr b)) ∧
    (∀ (a : JStr) (b : Option JStr) (lp : Option LocationParams) (bp : AdgParams) (rid : JStr),
      findCloseBody a = none →
      indexOfSub a ("<body>".data) = none →
      createAd { ad := some a, beacon := b } lp bp rid = .ok a) := by
  constructor
  · intro X b lp bp rid h1 h2 h3 h4
    simp only [createAd]
    rw [appendChild_wrap X b h1 h3]
    rw [removeWrapper_wrap (X ++ jsUndefStr b) h2]
    simp [h4]
  · intro a b lp bp rid hnc hnb
    simp only [createAd]
    have happ : appendChildToBody a b = a := by
      unfold appendChildToBody
      rw [hnc]
    have hrw : removeWrapper a = none := by
      unfold removeWrapper
      rw [hnb]
    rw [happ, hrw]

/-- C6 witness: the amended theorem applied to concrete wrapped markup
with a beacon, and to tag-free markup. -/
theorem createAd_postprocess_check :
    createAd { ad := some (("<body>".data ++ "X".data) ++ "</body>".data), beacon := some ("B".data) } none {} ("r".data) = .ok ("X".data ++ "B".data) ∧
    createAd { ad := some ("AD".data), beacon := none } none {} ("r".data) = .ok ("AD".data) :=
  ⟨createAd_postprocess_amended.1 ("X".data) (some ("B".data)) none {} ("r".data)
      (by decide) (by decide) (by decide) (by decide),
   createAd_postprocess_amended.2 ("AD".data) none none {} ("r".data) (by decide) (by decide)⟩

/-- C7: in `createAd`, a result with no truthy `vastxml` keeps the
server-supplied ad markup (when it carries no body tags it passes through
the post-processing unchanged); a non-empty `vastxml` on an
upper-billboard placement yields the branded browser-M player tag
parameterized by the `marginTop` param defaulting to "0"; on any other
placement it yields the generic APV player tag anchored at the DOM id
`apvad-<requestId>`; and the newline stripping applied to the VAST before
it is embedded in the inline script literal leaves no newline character.
The side conditions state that the generated tags introduce no stray
body-tag matches, which the witnesses check by evaluation. -/
theorem createAd_vast_branches :
    (∀ (ar : AdResult) (lp : Option LocationParams) (bp : AdgParams) (rid v : JStr),
      ar.vastxml = some v → v.isEmpty = false → isUpperBillboard lp = true →
      findCloseBody (("<body>".data ++
          (createADGBrowserMTag ++
            insertVASTMethodForADGBrowserM v (jsOrJ bp.marginTop ("0".data)))) ++
          "</body>".data) =
        some (6 + (createADGBrowserMTag ++
          insertVASTMethodForADGBrowserM v (jsOrJ bp.marginTop ("0".data))).length, 7) →
      indexOfSub ((createADGBrowserMTag ++
          insertVASTMethodForADGBrowserM v (jsOrJ bp.marginTop ("0".data))) ++
          jsUndefStr ar.beacon) ("</body>".data) = none →
      '$' ∉ jsUndefStr ar.beacon →
      createAd ar lp bp rid =
        .ok ((createADGBrowserMTag ++
          insertVASTMethodForADGBrowserM v (jsOrJ bp.marginTop ("0".data))) ++
          jsUndefStr ar.beacon)) ∧
    (∀ (ar : AdResult) (lp : Option LocationParams) (bp : AdgParams) (rid v : JStr),
      ar.vastxml = some v → v.isEmpty = false → isUpperBillboard lp = false →
      findCloseBody (("<body>".data ++
          ("<div id=\"apvad-".data ++ rid ++ "\"></div>".data ++ createAPVTag ++
            insertVASTMethodForAPV rid v)) ++ "</body>".data) =
        some (6 + ("<div id=\"apvad-".data ++ rid ++ "\"></div>".data ++ createAPVTag ++
          insertVASTMethodForAPV rid v).length, 7) →
      indexOfSub (("<div id=\"apvad-".data ++ rid ++ "\"></div>".data ++ createAPVTag ++
          insertVASTMethodForAPV rid v) ++ jsUndefStr ar.beacon) ("</body>".data) = none →
      '$' ∉ jsUndefStr ar.beacon →
      createAd ar lp bp rid =
        .ok (("<div id=\"apvad-".data ++ rid ++ "\"></div>".data ++ createAPVTag ++
          insertVASTMethodForAPV rid v) ++ jsUndefStr ar.beacon)) ∧
    (∀ (ar : AdResult) (lp : Option LocationParams) (bp : AdgParams) (rid a : JStr),
      jsTruthyStr ar.vastxml = false → ar.ad = some a →
      findCloseBody a = none → indexOfSub a ("<body>".data) = none →
      createAd ar lp bp rid = .ok a) ∧
    (∀ v : JStr, '\n' ∉ stripNewlines v) := by
  refine ⟨?_, ?_, ?_, stripNewlines_no_nl⟩
  · intro ar lp bp rid v hvx hve hub h1 h2 h3
    simp only [createAd, hvx, hve, hub, Bool.false_eq_true, if_false, if_true]
    have hshape : (("<body>".data ++ createADGBrowserMTag) ++
        insertVASTMethodForADGBrowserM v (jsOrJ bp.marginTop ("0".data))) ++ "</body>".data =
        ("<body>".data ++ (createADGBrowserMTag ++
          insertVASTMethodForADGBrowserM v (jsOrJ bp.marginTop ("0".data)))) ++
          "</body>".data := by
      simp [List.append_assoc]
    rw [hshape, appendChild_wrap _ _ h1 h3, removeWrapper_wrap _ h2]
    dsimp only
    have hne : ((createADGBrowserMTag ++
        insertVASTMethodForADGBrowserM v (jsOrJ bp.marginTop ("0".data))) ++
        jsUndefStr ar.beacon).isEmpty = false := rfl
    rw [hne]
    rfl
  · intro ar lp bp rid v hvx hve hub h1 h2 h3
    simp only [createAd, hvx, hve, hub, Bool.false_eq_true, if_false, if_true]
    have hsplit : ("<body><div id=\"apvad-".data : JStr) =
        "<body>".data ++ "<div id=\"apvad-".data := rfl
    have hshape : (((("<body><div id=\"apvad-".data ++ rid) ++ "\"></div>".data) ++
        createAPVTag) ++ insertVASTMethodForAPV rid v) ++ "</body>".data =
        ("<body>".data ++ ("<div id=\"apvad-".data ++ rid ++ "\"></div>".data ++ createAPVTag ++
          insertVASTMethodForAPV rid v)) ++ "</body>".data := by
      rw [hsplit]
      simp [List.append_assoc]
    rw [hshape, appendChild_wrap _ _ h1 h3, removeWrapper_wrap _ h2]
    dsimp only
    have hne : (("<div id=\"apvad-".data ++ rid ++ "\"></div>".data ++ createAPVTag ++
        insertVASTMethodForAPV rid v) ++ jsUndefStr ar.beacon).isEmpty = false := rfl
    rw [hne]
    rfl
  · intro ar lp bp rid a hvf had hnc hnb
    have happ : appendChildToBody a ar.beacon = a := by
      unfold appendChildToBody
      rw [hnc]
    have hrw : removeWrapper a = none := by
      unfold removeWrapper
      rw [hnb]
    rcases hvx : ar.vastxml with _ | v
    · simp only [createAd, hvx, had]
      rw [happ, hrw]
    · have hve : v.isEmpty = true := by
        rw [hvx] at hvf
        simpa [jsTruthyStr] using hvf
      simp only [createAd, hvx, hve, had, if_true]
      rw [happ, hrw]

set_option maxRecDepth 100000 in
/-- C7 witness: the three branches applied to a concrete VAST payload
(with an embedded newline), an upper-billboard and a generic placement,
and plain markup; plus a concrete newline-stripping check. -/
theorem createAd_vast_branches_check :
    createAd { vastxml := some ("<VAST>\na</VAST>".data), beacon := some ("".data) }
        (some { option := some { ad_type := some ("upper_billboard".data) } }) {} ("r".data) =
      .ok ((createADGBrowserMTag ++
        insertVASTMethodForADGBrowserM ("<VAST>\na</VAST>".data)
          (jsOrJ ({} : AdgParams).marginTop ("0".data))) ++ jsUndefStr (some ("".data))) ∧
    createAd { vastxml := some ("<VAST>\na</VAST>".data), beacon := some ("".data) }
        none {} ("r".data) =
      .ok (("<div id=\"apvad-".data ++ "r".data ++ "\"></div>".data ++ createAPVTag ++
        insertVASTMethodForAPV ("r".data) ("<VAST>\na</VAST>".data)) ++
        jsUndefStr (some ("".data))) ∧
    createAd { ad := some ("<p>x</p>".data) } none {} ("r".data) = .ok ("<p>x</p>".data) ∧
    '\n' ∉ stripNewlines ("a\nb".data) :=
  ⟨createAd_vast_branches.1
      { vastxml := some ("<VAST>\na</VAST>".data), beacon := some ("".data) }
      (some { option := some { ad_type := some ("upper_billboard".data) } }) {} ("r".data)
      ("<VAST>\na</VAST>".data) rfl (by decide) (by decide) (by decide) (by decide) (by decide),
   createAd_vast_branches.2.1
      { vastxml := some ("<VAST>\na</VAST>".data), beacon := some ("".data) }
      none {} ("r".data) ("<VAST>\na</VAST>".data) rfl (by decide) (by decide) (by decide)
      (by decide) (by decide),
   createAd_vast_branches.2.2.1 { ad := some ("<p>x</p>".data) } none {} ("r".data)
      ("<p>x</p>".data) (by decide) rfl (by decide) (by decide),
   createAd_vast_branches.2.2.2 ("a\nb".data)⟩
